import Mathlib

/-!
# Verification of the UCP / Shopify bridge core

A shallow embedding, in Lean 4, of the core data-model translation of the
`shopify-ucp-bridge` repository: the money codec (`app/utils/ucpTransformers.ts`),
the line-item normalizer (`parseUCPLineItems`), and the checkout / cart / order
mappers and checkout lifecycle operations of
`app/services/ucp/{checkoutService,cartService,orderService}.ts`.

Conventions of the embedding:
* A TypeScript value that may be `undefined`/`null` is an `Option`;
  optional chaining `a?.b` is `Option.bind`.
* JavaScript truthiness on strings (`""` is falsy) is `strTruthy`;
  `a || b` on strings is `jsOr`.
* Amount arithmetic (`parseFloat`, `Math.round`, `toFixed`) is modelled with
  exact rational arithmetic over decimal strings, which agrees with the IEEE
  double computations of the source for every amount whose magnitude in minor
  units is far below 2^50 (the entire realistic range).
* ISO timestamps are modelled as millisecond epoch integers, so the 24-hour
  expiry arithmetic on `Date` becomes addition of `24*60*60*1000`.
-/

namespace UCPBridge

/-! ## JavaScript-semantics helpers -/

/-- Truthiness of an optional string field: `undefined`, `null` and `""` are falsy. -/
def strTruthy : Option String → Bool
  | none => false
  | some s => !(s == "")

/-- `a || b` on an optional string: the string itself when truthy, otherwise the default. -/
def jsOr (o : Option String) (dflt : String) : String :=
  match o with
  | none => dflt
  | some s => if s == "" then dflt else s

/-- `a || b` on an optional number: the number when truthy (nonzero), otherwise the default. -/
def jsOrInt (o : Option Int) (dflt : Int) : Int :=
  match o with
  | none => dflt
  | some n => if n == 0 then dflt else n

/-- `pat` occurs as a contiguous run inside `l`. -/
def listIsInfix (pat l : List Char) : Bool :=
  match l with
  | [] => pat.isEmpty
  | _ :: tl => pat.isPrefixOf l || listIsInfix pat tl

/-- `s.includes(pat)`: substring containment, as on JavaScript strings. -/
def containsSubstr (s pat : String) : Bool :=
  listIsInfix pat.data s.data

/-! ## Money codec (`app/utils/ucpTransformers.ts`) -/

/-- The `CURRENCY_DECIMALS` override table of `ucpTransformers.ts`, verbatim. -/
def CURRENCY_DECIMALS : List (String × Nat) :=
  [("BHD", 3), ("BIF", 0), ("CLF", 4), ("CLP", 0), ("DJF", 0), ("GNF", 0),
   ("IQD", 3), ("ISK", 0), ("JOD", 3), ("JPY", 0), ("KMF", 0), ("KRW", 0),
   ("KWD", 3), ("LYD", 3), ("OMR", 3), ("PYG", 0), ("RWF", 0), ("TND", 3),
   ("UGX", 0), ("VND", 0), ("VUV", 0), ("XAF", 0), ("XOF", 0), ("XPF", 0)]

/-- `currencyCode.toUpperCase()`; currency codes are ASCII, where
`Char.toUpper` agrees with the JavaScript method. -/
def jsToUpper (s : String) : String := String.mk (s.data.map Char.toUpper)

/-- `getCurrencyDecimals`: table lookup on the uppercased code, defaulting to 2
(the `?? 2` of the source). -/
def getCurrencyDecimals (currencyCode : String) : Nat :=
  ((CURRENCY_DECIMALS.lookup (jsToUpper currencyCode)).getD 2)

/-- Decimal digit characters `'0'`-`'9'`. -/
def isDigitChar (c : Char) : Bool := 48 ≤ c.toNat && c.toNat ≤ 57

/-- Numeric value of a digit character. -/
def digitToNat (c : Char) : Nat := c.toNat - 48

/-- Value of a run of digit characters, most significant first. -/
def digitsVal (l : List Char) : Nat :=
  l.foldl (fun acc c => 10 * acc + digitToNat c) 0

/-- Fuelled recursion producing the decimal digits of `n`, most significant
first; any fuel above `n` is enough. -/
def natDigitsAux : Nat → Nat → List Char
  | 0, _ => []
  | fuel + 1, n =>
    if n < 10 then [Char.ofNat (48 + n)]
    else natDigitsAux fuel (n / 10) ++ [Char.ofNat (48 + n % 10)]

/-- Decimal digit characters of a natural number, most significant first,
without leading zeros (`0` itself is `"0"`). -/
def natDigits (n : Nat) : List Char := natDigitsAux (n + 1) n

/-- The result of `parseFloat` on a decimal literal: an exact value
`mantissa / 10 ^ fracLen`. -/
structure ParsedDecimal where
  mantissa : Int
  fracLen : Nat
deriving DecidableEq

/-- Whitespace skipped by `parseFloat` before the number. -/
def isSpaceChar (c : Char) : Bool := c == ' ' || c == '\t' || c == '\n' || c == '\r'

/-- Leading sign of a numeric literal: the signum and the remaining characters. -/
def splitSign (cs : List Char) : Int × List Char :=
  match cs with
  | [] => (1, [])
  | c :: rest => if c == '-' then (-1, rest) else if c == '+' then (1, rest) else (1, cs)

/-- The unsigned part of a decimal literal: digits, an optional point and more
digits; the longest valid prefix is read and trailing characters are ignored;
no digits at all is `NaN`, i.e. `none`. -/
def parseDecimalBody (sign : Int) (cs1 : List Char) : Option ParsedDecimal :=
  let intDs := cs1.takeWhile isDigitChar
  let rest := cs1.dropWhile isDigitChar
  if rest.head? = some '.' then
    let fracDs := rest.tail.takeWhile isDigitChar
    if intDs.isEmpty && fracDs.isEmpty then none
    else some ⟨sign * ((digitsVal intDs * 10 ^ fracDs.length + digitsVal fracDs : Nat) : Int),
               fracDs.length⟩
  else
    if intDs.isEmpty then none
    else some ⟨sign * ((digitsVal intDs : Nat) : Int), 0⟩

/-- Exact model of `parseFloat` on plain decimal literals (optional sign, digits,
optional point and digits). Exponent notation is outside the model; no input of
the verified properties uses it. -/
def parseDecimalCore (cs : List Char) : Option ParsedDecimal :=
  parseDecimalBody (splitSign cs).1 (splitSign cs).2

/-- `parseFloat` on a string: skip leading whitespace, then read a decimal literal. -/
def parseDecimal (s : String) : Option ParsedDecimal :=
  parseDecimalCore (s.data.dropWhile isSpaceChar)

/-- `Math.round (num / den)` for `den > 0`, i.e. `⌊num/den + 1/2⌋` computed exactly. -/
def jsRoundRat (num den : Int) : Int :=
  Int.fdiv (2 * num + den) (2 * den)

/-- `toMinorUnits`: `Math.round(parseFloat(amount) * 10 ** decimals)`,
returning 0 when `parseFloat` gives `NaN`. -/
def toMinorUnits (amount : String) (currencyCode : String) : Int :=
  let decimals := getCurrencyDecimals currencyCode
  match parseDecimal amount with
  | none => 0
  | some p => jsRoundRat (p.mantissa * (10 : Int) ^ decimals) ((10 : Int) ^ p.fracLen)

/-- Left-pad a digit run with `'0'` up to `width` characters. -/
def zeroPad (width : Nat) (l : List Char) : List Char :=
  List.replicate (width - l.length) '0' ++ l

/-- `fromMinorUnits`: `(cents / 10 ** decimals).toFixed(decimals)`.
`toFixed(d)` writes the sign, the integer digits without leading zeros, and —
when `d > 0` — a point followed by exactly `d` fractional digits. -/
def fromMinorUnits (cents : Int) (currencyCode : String) : String :=
  let decimals := getCurrencyDecimals currencyCode
  let n := cents.natAbs
  let signChars : List Char := if cents < 0 then ['-'] else []
  if decimals == 0 then
    String.mk (signChars ++ natDigits n)
  else
    String.mk (signChars ++ natDigits (n / 10 ^ decimals) ++
      '.' :: zeroPad decimals (natDigits (n % 10 ^ decimals)))

/-- `UCPMoney`: a decimal-string amount with its currency. -/
structure UCPMoney where
  amount : String
  currency_code : String
deriving DecidableEq

/-- `transformMoneyFromUCP`: minor units to a `UCPMoney` decimal string. -/
def transformMoneyFromUCP (cents : Int) (currencyCode : String) : UCPMoney :=
  ⟨fromMinorUnits cents currencyCode, currencyCode⟩

/-- `transformMoneyToUCP`: a `UCPMoney` decimal string to minor units. -/
def transformMoneyToUCP (money : UCPMoney) : Int :=
  toMinorUnits money.amount money.currency_code

/-! ## Arithmetic of digit runs

Facts connecting `natDigits`, `zeroPad` and `digitsVal`, used to settle the
money-codec round-trip properties. -/

theorem digitsVal_foldl (l : List Char) :
    ∀ acc : Nat,
      l.foldl (fun a c => 10 * a + digitToNat c) acc = acc * 10 ^ l.length + digitsVal l := by
  induction l with
  | nil => intro acc; simp [digitsVal]
  | cons c tl ih =>
    intro acc
    have hc : digitsVal (c :: tl) = digitToNat c * 10 ^ tl.length + digitsVal tl := by
      show tl.foldl _ (10 * 0 + digitToNat c) = _
      rw [ih]; ring_nf
    show tl.foldl _ (10 * acc + digitToNat c) = _
    rw [ih, hc, List.length_cons, pow_succ]
    ring

theorem digitsVal_append (l r : List Char) :
    digitsVal (l ++ r) = digitsVal l * 10 ^ r.length + digitsVal r := by
  show (l ++ r).foldl _ 0 = _
  rw [List.foldl_append, digitsVal_foldl]
  rfl

theorem natDigitsAux_succ (fuel n : Nat) :
    natDigitsAux (fuel + 1) n =
      if n < 10 then [Char.ofNat (48 + n)]
      else natDigitsAux fuel (n / 10) ++ [Char.ofNat (48 + n % 10)] := rfl

theorem natDigitsAux_congr : ∀ {f1 : Nat} {f2 n : Nat}, n < f1 → n < f2 →
    natDigitsAux f1 n = natDigitsAux f2 n := by
  intro f1
  induction f1 with
  | zero => intro f2 n h1; omega
  | succ f1 ih =>
    intro f2 n h1 h2
    cases f2 with
    | zero => omega
    | succ f2 =>
      rw [natDigitsAux_succ, natDigitsAux_succ]
      by_cases h : n < 10
      · simp [h]
      · have hdiv : n / 10 < n := Nat.div_lt_self (by omega) (by omega)
        simp only [h, if_false]
        congr 1
        exact ih (by omega) (by omega)

theorem natDigits_of_lt {n : Nat} (h : n < 10) : natDigits n = [Char.ofNat (48 + n)] := by
  unfold natDigits
  rw [natDigitsAux_succ]
  simp [h]

theorem natDigits_of_not_lt {n : Nat} (h : ¬ n < 10) :
    natDigits n = natDigits (n / 10) ++ [Char.ofNat (48 + n % 10)] := by
  unfold natDigits
  rw [natDigitsAux_succ]
  simp only [h, if_false]
  have hdiv : n / 10 < n := Nat.div_lt_self (by omega) (by omega)
  congr 1
  exact natDigitsAux_congr (by omega) (by omega)

theorem digitToNat_ofNat {d : Nat} (h : d < 10) : digitToNat (Char.ofNat (48 + d)) = d :=
  (by decide : ∀ d ∈ List.range 10, digitToNat (Char.ofNat (48 + d)) = d) d
    (List.mem_range.mpr h)

theorem isDigitChar_ofNat {d : Nat} (h : d < 10) : isDigitChar (Char.ofNat (48 + d)) = true :=
  (by decide : ∀ d ∈ List.range 10, isDigitChar (Char.ofNat (48 + d)) = true) d
    (List.mem_range.mpr h)

theorem digitsVal_natDigits (n : Nat) : digitsVal (natDigits n) = n := by
  induction n using Nat.strongRecOn with
  | _ n ih =>
    by_cases h : n < 10
    · rw [natDigits_of_lt h]
      show 10 * 0 + digitToNat (Char.ofNat (48 + n)) = n
      rw [digitToNat_ofNat h]
      omega
    · rw [natDigits_of_not_lt h, digitsVal_append,
        ih (n / 10) (Nat.div_lt_self (by omega) (by omega))]
      have : digitsVal [Char.ofNat (48 + n % 10)] = n % 10 := by
        show 10 * 0 + digitToNat (Char.ofNat (48 + n % 10)) = n % 10
        rw [digitToNat_ofNat (by omega)]
        omega
      rw [this]
      simp
      omega

theorem natDigits_ne_nil (n : Nat) : natDigits n ≠ [] := by
  by_cases h : n < 10
  · rw [natDigits_of_lt h]; simp
  · rw [natDigits_of_not_lt h]; simp

theorem isDigitChar_of_mem_natDigits (n : Nat) :
    ∀ c ∈ natDigits n, isDigitChar c = true := by
  induction n using Nat.strongRecOn with
  | _ n ih =>
    intro c hc
    by_cases h : n < 10
    · rw [natDigits_of_lt h] at hc
      simp only [List.mem_singleton] at hc
      exact hc ▸ isDigitChar_ofNat h
    · rw [natDigits_of_not_lt h] at hc
      rcases List.mem_append.mp hc with hc | hc
      · exact ih (n / 10) (Nat.div_lt_self (by omega) (by omega)) c hc
      · simp only [List.mem_singleton] at hc
        exact hc ▸ isDigitChar_ofNat (by omega)

theorem natDigits_length_le {n d : Nat} (hd : 0 < d) (hn : n < 10 ^ d) :
    (natDigits n).length ≤ d := by
  induction n using Nat.strongRecOn generalizing d with
  | _ n ih =>
    by_cases h : n < 10
    · rw [natDigits_of_lt h]; simpa using hd
    · have hd2 : 2 ≤ d := by
        by_contra hcon
        interval_cases d
        all_goals omega
      rw [natDigits_of_not_lt h]
      have hdiv : n / 10 < 10 ^ (d - 1) := by
        rw [Nat.div_lt_iff_lt_mul (by omega)]
        calc n < 10 ^ d := hn
        _ = 10 ^ (d - 1) * 10 := by
            rw [← pow_succ]
            congr 1
            omega
      have := ih (n / 10) (Nat.div_lt_self (by omega) (by omega)) (d := d - 1) (by omega) hdiv
      simp only [List.length_append, List.length_singleton]
      omega

theorem digitsVal_zeroPad (w : Nat) (l : List Char) :
    digitsVal (zeroPad w l) = digitsVal l := by
  unfold zeroPad
  rw [digitsVal_append]
  have : ∀ k, digitsVal (List.replicate k '0') = 0 := by
    intro k
    induction k with
    | zero => rfl
    | succ k ihk =>
      rw [List.replicate_succ]
      show (List.replicate k '0').foldl _ (10 * 0 + digitToNat '0') = 0
      rw [digitsVal_foldl]
      simpa [digitToNat] using ihk
  rw [this]
  simp

theorem zeroPad_length {w : Nat} {l : List Char} (h : l.length ≤ w) :
    (zeroPad w l).length = w := by
  unfold zeroPad
  simp
  omega

theorem isDigitChar_of_mem_zeroPad {w : Nat} {l : List Char}
    (hl : ∀ c ∈ l, isDigitChar c = true) :
    ∀ c ∈ zeroPad w l, isDigitChar c = true := by
  intro c hc
  rcases List.mem_append.mp hc with hc | hc
  · rw [List.eq_of_mem_replicate hc]; decide
  · exact hl c hc

theorem takeWhile_all_append {p : Char → Bool} {l : List Char} (r : List Char)
    (h : ∀ c ∈ l, p c = true) :
    (l ++ r).takeWhile p = l ++ r.takeWhile p := by
  induction l with
  | nil => simp
  | cons c tl ih =>
    simp only [List.cons_append, List.takeWhile_cons, h c (by simp), if_true]
    rw [ih (fun x hx => h x (by simp [hx]))]

theorem dropWhile_all_append {p : Char → Bool} {l : List Char} (r : List Char)
    (h : ∀ c ∈ l, p c = true) :
    (l ++ r).dropWhile p = r.dropWhile p := by
  induction l with
  | nil => simp
  | cons c tl ih =>
    simp only [List.cons_append, List.dropWhile_cons, h c (by simp)]
    exact ih (fun x hx => h x (by simp [hx]))

theorem takeWhile_all {p : Char → Bool} {l : List Char} (h : ∀ c ∈ l, p c = true) :
    l.takeWhile p = l := by
  simpa using takeWhile_all_append (p := p) [] h

theorem dropWhile_all {p : Char → Bool} {l : List Char} (h : ∀ c ∈ l, p c = true) :
    l.dropWhile p = [] := by
  simpa using dropWhile_all_append (p := p) [] h

theorem digit_beq_false {c : Char} (h : isDigitChar c = true) (c' : Char)
    (h' : isDigitChar c' = false) : (c == c') = false := by
  cases hbe : c == c'
  · rfl
  · rw [beq_iff_eq] at hbe
    subst hbe
    rw [h] at h'
    exact absurd h' (by simp)

theorem splitSign_digit_head {c : Char} (cs : List Char) (hc : isDigitChar c = true) :
    splitSign (c :: cs) = (1, c :: cs) := by
  unfold splitSign
  simp only [digit_beq_false hc '-' (by decide), digit_beq_false hc '+' (by decide),
    Bool.false_eq_true, if_false]

theorem isSpaceChar_of_digit {c : Char} (h : isDigitChar c = true) :
    isSpaceChar c = false := by
  unfold isSpaceChar
  rw [digit_beq_false h ' ' (by decide), digit_beq_false h '\t' (by decide),
    digit_beq_false h '\n' (by decide), digit_beq_false h '\r' (by decide)]
  rfl

theorem parseDecimalBody_frac (sign : Int) {d : Nat} (a v : Nat) (hv : v < 10 ^ d)
    (hd : 0 < d) :
    parseDecimalBody sign (natDigits a ++ '.' :: zeroPad d (natDigits v)) =
      some ⟨sign * ((a * 10 ^ d + v : Nat) : Int), d⟩ := by
  have hall := isDigitChar_of_mem_natDigits a
  have hpad : ∀ c ∈ zeroPad d (natDigits v), isDigitChar c = true :=
    isDigitChar_of_mem_zeroPad (isDigitChar_of_mem_natDigits v)
  have hlen : (zeroPad d (natDigits v)).length = d :=
    zeroPad_length (natDigits_length_le hd hv)
  have hne : (natDigits a).isEmpty = false := by
    cases hE : (natDigits a).isEmpty
    · rfl
    · exact absurd (List.isEmpty_iff.mp hE) (natDigits_ne_nil a)
  unfold parseDecimalBody
  rw [takeWhile_all_append _ hall, dropWhile_all_append _ hall,
    List.takeWhile_cons, List.dropWhile_cons]
  simp only [show isDigitChar '.' = false by decide, Bool.false_eq_true, if_false,
    List.append_nil, List.head?_cons, List.tail_cons, takeWhile_all hpad,
    eq_self_iff_true, if_true, hne, Bool.false_and]
  rw [digitsVal_natDigits, digitsVal_zeroPad, digitsVal_natDigits, hlen]

theorem parseDecimalBody_int (sign : Int) (a : Nat) :
    parseDecimalBody sign (natDigits a) = some ⟨sign * (a : Int), 0⟩ := by
  have hall := isDigitChar_of_mem_natDigits a
  have hne : (natDigits a).isEmpty = false := by
    cases hE : (natDigits a).isEmpty
    · rfl
    · exact absurd (List.isEmpty_iff.mp hE) (natDigits_ne_nil a)
  unfold parseDecimalBody
  rw [takeWhile_all hall, dropWhile_all hall]
  simp only [List.head?_nil, reduceCtorEq, if_false, hne, Bool.false_eq_true]
  rw [digitsVal_natDigits]

theorem jsRoundRat_exact (m : Int) (d : Nat) : jsRoundRat (m * 10 ^ d) (10 ^ d) = m := by
  unfold jsRoundRat
  have hP : (0 : Int) < 10 ^ d := by positivity
  have h1 : 2 * (m * 10 ^ d) + 10 ^ d = (10 : Int) ^ d * (2 * m + 1) := by ring
  have h2 : 2 * ((10 : Int) ^ d) = (10 : Int) ^ d * 2 := by ring
  rw [h1, h2, Int.fdiv_eq_ediv _ (by positivity), Int.mul_ediv_mul_of_pos _ _ hP]
  omega

theorem parseDecimal_fromMinorUnits (cents : Int) (c : String) :
    parseDecimal (fromMinorUnits cents c) = some ⟨cents, getCurrencyDecimals c⟩ := by
  unfold fromMinorUnits parseDecimal
  set d := getCurrencyDecimals c with hd
  set n := cents.natAbs with hn
  have core_nonneg : ∀ l : List Char, (∃ b L, l = b :: L ∧ isDigitChar b = true) →
      parseDecimalCore (l.dropWhile isSpaceChar) = parseDecimalBody 1 l := by
    rintro l ⟨b, L, rfl, hb⟩
    rw [List.dropWhile_cons, isSpaceChar_of_digit hb]
    simp only [Bool.false_eq_true, if_false]
    unfold parseDecimalCore
    rw [splitSign_digit_head _ hb]
  have core_neg : ∀ l : List Char,
      parseDecimalCore (('-' :: l).dropWhile isSpaceChar) = parseDecimalBody (-1) l := by
    intro l
    rw [List.dropWhile_cons]
    simp only [show isSpaceChar '-' = false by decide, Bool.false_eq_true, if_false]
    unfold parseDecimalCore splitSign
    simp
  by_cases h0 : d = 0
  · simp only [h0, beq_self_eq_true, if_pos]
    by_cases hneg : cents < 0
    · simp only [if_pos hneg]
      show parseDecimalCore ((('-' :: natDigits n).dropWhile isSpaceChar)) = _
      rw [core_neg, parseDecimalBody_int]
      have : (-1 : Int) * (n : Int) = cents := by omega
      rw [this]
    · simp only [if_neg hneg, List.nil_append]
      obtain ⟨b, L, hbl⟩ := List.exists_cons_of_ne_nil (natDigits_ne_nil n)
      show parseDecimalCore ((natDigits n).dropWhile isSpaceChar) = _
      have hb : isDigitChar b = true :=
        isDigitChar_of_mem_natDigits n b (by rw [hbl]; exact List.mem_cons_self b L)
      rw [core_nonneg (natDigits n) ⟨b, L, hbl, hb⟩, parseDecimalBody_int]
      have : (1 : Int) * (n : Int) = cents := by omega
      rw [this]
  · have hdpos : 0 < d := Nat.pos_of_ne_zero h0
    have hmod : n % 10 ^ d < 10 ^ d := Nat.mod_lt _ (by positivity)
    have hsplit : n / 10 ^ d * 10 ^ d + n % 10 ^ d = n := Nat.div_add_mod' n (10 ^ d)
    simp only [show (d == 0) = false by simpa using h0, Bool.false_eq_true, if_false]
    by_cases hneg : cents < 0
    · simp only [if_pos hneg]
      show parseDecimalCore
        (('-' :: (natDigits (n / 10 ^ d) ++ '.' :: zeroPad d (natDigits (n % 10 ^ d)))).dropWhile
          isSpaceChar) = _
      rw [core_neg, parseDecimalBody_frac _ _ _ hmod hdpos, hsplit]
      have : (-1 : Int) * (n : Int) = cents := by omega
      rw [this]
    · simp only [if_neg hneg, List.nil_append]
      obtain ⟨b, L, hbl⟩ := List.exists_cons_of_ne_nil (natDigits_ne_nil (n / 10 ^ d))
      show parseDecimalCore
        ((natDigits (n / 10 ^ d) ++ '.' :: zeroPad d (natDigits (n % 10 ^ d))).dropWhile
          isSpaceChar) = _
      have hb : isDigitChar b = true :=
        isDigitChar_of_mem_natDigits (n / 10 ^ d) b (by rw [hbl]; exact List.mem_cons_self b L)
      rw [core_nonneg _ ⟨b, L ++ '.' :: zeroPad d (natDigits (n % 10 ^ d)), by rw [hbl]; rfl,
          hb⟩,
        parseDecimalBody_frac _ _ _ hmod hdpos, hsplit]
      have : (1 : Int) * (n : Int) = cents := by omega
      rw [this]

/-- The exact round-trip of the money codec: formatting any integer amount of
minor units and reading it back recovers the amount, for every currency. -/
theorem toMinorUnits_fromMinorUnits (cents : Int) (c : String) :
    toMinorUnits (fromMinorUnits cents c) c = cents := by
  unfold toMinorUnits
  rw [parseDecimal_fromMinorUnits]
  exact jsRoundRat_exact cents (getCurrencyDecimals c)

/-- A nonnegative decimal string in the canonical form that `toFixed` outputs for
currency `c`: the digits of `a` without leading zeros and, when the currency has
`d > 0` decimal places, a point followed by the `d`-digit zero-padded digits of
`v`. -/
def decimalString (c : String) (a v : Nat) : String :=
  if getCurrencyDecimals c == 0 then String.mk (natDigits a)
  else String.mk (natDigits a ++ '.' :: zeroPad (getCurrencyDecimals c) (natDigits v))

theorem fromMinorUnits_decimalString (c : String) (a v : Nat)
    (hv : v < 10 ^ getCurrencyDecimals c) :
    fromMinorUnits ((a * 10 ^ getCurrencyDecimals c + v : Nat) : Int) c =
      decimalString c a v := by
  unfold fromMinorUnits decimalString
  have h1 : ¬ (((a * 10 ^ getCurrencyDecimals c + v : Nat) : Int) < 0) :=
    Int.not_lt.mpr (Int.natCast_nonneg _)
  have habs : ((a * 10 ^ getCurrencyDecimals c + v : Nat) : Int).natAbs =
      a * 10 ^ getCurrencyDecimals c + v := Int.natAbs_ofNat _
  by_cases h0 : getCurrencyDecimals c = 0
  · have hv0 : v = 0 := by
      rw [h0] at hv
      simpa using hv
    simp only [h0, pow_zero, Nat.mul_one, hv0, Nat.add_zero] at habs ⊢
    simp only [habs, if_pos, beq_self_eq_true, if_true]
    rw [if_neg (Int.not_lt.mpr (Int.natCast_nonneg a)), List.nil_append]
  · have hP : 0 < 10 ^ getCurrencyDecimals c := by positivity
    have hdiv : (a * 10 ^ getCurrencyDecimals c + v) / 10 ^ getCurrencyDecimals c = a := by
      rw [Nat.mul_comm a, Nat.mul_add_div hP]
      simp [Nat.div_eq_of_lt hv]
    have hmod : (a * 10 ^ getCurrencyDecimals c + v) % 10 ^ getCurrencyDecimals c = v := by
      rw [Nat.mul_comm a, Nat.mul_add_mod]
      exact Nat.mod_eq_of_lt hv
    simp only [show (getCurrencyDecimals c == 0) = false by simpa using h0,
      Bool.false_eq_true, if_false, if_neg h1, habs, hdiv, hmod, List.nil_append]

/-- Reading a canonical decimal string and re-formatting it is the identity:
the formatting direction of the codec round trip. -/
theorem roundtrip_decimalString (c : String) (a v : Nat)
    (hv : v < 10 ^ getCurrencyDecimals c) :
    fromMinorUnits (toMinorUnits (decimalString c a v) c) c = decimalString c a v := by
  conv_lhs => rw [← fromMinorUnits_decimalString c a v hv]
  rw [toMinorUnits_fromMinorUnits, fromMinorUnits_decimalString c a v hv]

/-! ## Backend (Shopify) record shapes

The fields of the GraphQL fragments `DRAFT_ORDER_CHECKOUT_FIELDS`,
`DRAFT_ORDER_FIELDS` and `ORDER_FIELDS`. Nullable nesting such as
`set?.shopMoney?.amount` is collapsed one level: a `ShopMoney` stands for the
`shopMoney` object of a price set, and a line-item edge stands for its `node`. -/

/-- `{ shopMoney { amount currencyCode } }` of a price set. -/
structure ShopMoney where
  amount : Option String := none
  currencyCode : Option String := none
deriving DecidableEq

/-- The `customer` object of a draft order or order. -/
structure Customer where
  id : Option String := none
  email : Option String := none
  firstName : Option String := none
  lastName : Option String := none
  phone : Option String := none
deriving DecidableEq

/-- A Shopify-side address (`shippingAddress` / `billingAddress`). -/
structure ShopifyAddress where
  address1 : Option String := none
  address2 : Option String := none
  city : Option String := none
  province : Option String := none
  provinceCode : Option String := none
  country : Option String := none
  countryCodeV2 : Option String := none
  zip : Option String := none
  phone : Option String := none
  firstName : Option String := none
  lastName : Option String := none
  company : Option String := none
deriving DecidableEq

/-- The linked `order { id name statusPageUrl }` of a completed draft order. -/
structure LinkedOrder where
  id : Option String := none
  name : Option String := none
  statusPageUrl : Option String := none
deriving DecidableEq

/-- `variant { product { id title featuredImage { url } } }`;
`featuredImage?.url` is collapsed to one optional field. -/
structure VariantProduct where
  id : Option String := none
  title : Option String := none
  featuredImageUrl : Option String := none
deriving DecidableEq

/-- The `variant` object of a line-item node. -/
structure Variant where
  id : Option String := none
  price : Option String := none
  product : Option VariantProduct := none
deriving DecidableEq

/-- A draft-order / order line-item node (the `node` of a `lineItems` edge). -/
structure LineItemNode where
  id : Option String := none
  name : Option String := none
  quantity : Int := 0
  sku : Option String := none
  fulfillableQuantity : Option Int := none
  variant : Option Variant := none
  originalUnitPriceSet : Option ShopMoney := none
deriving DecidableEq

/-- A Shopify draft-order record as selected by `DRAFT_ORDER_CHECKOUT_FIELDS`.
`createdAt` is a millisecond epoch timestamp standing for the ISO string;
`lineItems` stands for `lineItems.edges`. -/
structure DraftOrder where
  id : String := ""
  name : Option String := none
  createdAt : Option Int := none
  updatedAt : Option Int := none
  invoiceUrl : Option String := none
  status : Option String := none
  completedAt : Option Int := none
  order : Option LinkedOrder := none
  totalPriceSet : Option ShopMoney := none
  subtotalPriceSet : Option ShopMoney := none
  totalTaxSet : Option ShopMoney := none
  totalShippingPriceSet : Option ShopMoney := none
  totalDiscountsSet : Option ShopMoney := none
  lineItems : Option (List LineItemNode) := none
  customer : Option Customer := none
  shippingAddress : Option ShopifyAddress := none
  billingAddress : Option ShopifyAddress := none
deriving DecidableEq

/-! ## UCP entity shapes (`app/services/ucp/types/index.ts`) -/

/-- `UCPCheckoutStatus`. -/
inductive UCPCheckoutStatus
  | incomplete
  | requires_escalation
  | ready_for_complete
  | complete_in_progress
  | completed
  | canceled
deriving DecidableEq

/-- A UCP total line; `type` is the literal string of the source
(`"subtotal"`, `"tax"`, `"shipping"`, `"discount"`, `"total"`, ...). -/
structure UCPTotal where
  type : String
  amount : UCPMoney
  label : Option String := none
deriving DecidableEq

/-- A UCP diagnostic message. -/
structure UCPMessage where
  type : String
  code : Option String := none
  content : String
  severity : Option String := none
  field : Option String := none
deriving DecidableEq

/-- A UCP-side address, as produced by `transformShopifyAddressToUCP`. -/
structure UCPAddress where
  address1 : Option String := none
  address2 : Option String := none
  city : Option String := none
  province : Option String := none
  province_code : Option String := none
  country : Option String := none
  country_code : Option String := none
  zip : Option String := none
  phone : Option String := none
  first_name : Option String := none
  last_name : Option String := none
  company : Option String := none
deriving DecidableEq

/-- The `buyer` object a mapped checkout carries. -/
structure UCPBuyer where
  email : Option String := none
  first_name : Option String := none
  last_name : Option String := none
  phone : Option String := none
  addresses : List UCPAddress := []
deriving DecidableEq

/-- A normalized internal line item as mapped out of a Shopify node. -/
structure UCPLineItem where
  product_id : String
  variant_id : String
  quantity : Int
  title : Option String := none
  sku : Option String := none
  image_url : Option String := none
  price : UCPMoney
deriving DecidableEq

/-- A UCP link. -/
structure UCPLink where
  rel : String
  href : String
  title : Option String := none
deriving DecidableEq

/-- The embedded order reference of a completed checkout. -/
structure UCPOrderRef where
  id : Option String := none
  number : Option String := none
  permalink_url : Option String := none
deriving DecidableEq

/-- The constant `ucp` metadata envelope; the single capability entry of the
source's `capabilities` map is flattened to its name and spec URL. -/
structure UCPMetadata where
  version : String
  capability : String
  spec : String
deriving DecidableEq

/-- A mapped UCP checkout (`UCPCheckout`). -/
structure UCPCheckout where
  ucp : UCPMetadata
  id : String
  line_items : List UCPLineItem
  status : UCPCheckoutStatus
  currency : String
  totals : List UCPTotal
  links : List UCPLink
  messages : Option (List UCPMessage) := none
  expires_at : Option Int := none
  continue_url : Option String := none
  buyer : Option UCPBuyer := none
  order : Option UCPOrderRef := none
deriving DecidableEq

/-! ## Checkout mapper and state machine (`checkoutService.ts`) -/

/-- Truthiness of `draftOrder.customer?.email`. -/
def customerEmailTruthy (d : DraftOrder) : Bool :=
  strTruthy (d.customer.bind Customer.email)

/-- Truthiness of `draftOrder.lineItems?.edges?.length`. -/
def lineItemsNonempty (d : DraftOrder) : Bool :=
  match d.lineItems with
  | some (_ :: _) => true
  | _ => false

/-- `mapShopifyStatusToUCP` of `checkoutService.ts`: the derived checkout status. -/
def mapShopifyStatusToUCP (d : DraftOrder) : UCPCheckoutStatus :=
  if d.order.isSome then .completed
  else if d.status = some "COMPLETED" then .completed
  else if strTruthy d.invoiceUrl && customerEmailTruthy d && d.shippingAddress.isSome then
    .ready_for_complete
  else
    .incomplete

/-- The `missing_buyer_email` error message emitted for incomplete checkouts. -/
def missingEmailMessage : UCPMessage :=
  { type := "error"
    code := some "missing_buyer_email"
    content := "Buyer email is required to proceed with checkout"
    severity := some "requires_buyer_input"
    field := some "buyer.email" }

/-- The `missing_shipping_address` error message emitted for incomplete checkouts. -/
def missingShippingMessage : UCPMessage :=
  { type := "error"
    code := some "missing_shipping_address"
    content := "Shipping address is required for fulfillment"
    severity := some "requires_buyer_input"
    field := some "fulfillment.destination" }

/-- The `empty_cart` error message emitted for incomplete checkouts. -/
def emptyCartMessage : UCPMessage :=
  { type := "error"
    code := some "empty_cart"
    content := "At least one line item is required"
    severity := some "recoverable"
    field := some "line_items" }

/-- The warning emitted for `requires_escalation` checkouts. -/
def escalationMessage : UCPMessage :=
  { type := "warning"
    code := some "requires_buyer_input"
    content := "This checkout requires buyer input. Redirect to continue_url to complete."
    severity := some "requires_buyer_review" }

/-- `generateCheckoutMessages`: the diagnostic messages derived from the current
backend record and the already-derived status, in the push order of the source. -/
def generateCheckoutMessages (d : DraftOrder) (status : UCPCheckoutStatus) :
    List UCPMessage :=
  (if status = .incomplete then
    (if !customerEmailTruthy d then [missingEmailMessage] else []) ++
    (if d.shippingAddress.isNone then [missingShippingMessage] else []) ++
    (if !lineItemsNonempty d then [emptyCartMessage] else [])
  else []) ++
  (if status = .requires_escalation then [escalationMessage] else [])

/-- `transformShopifyLineItemToUCP`: one line-item edge to the internal shape. -/
def transformShopifyLineItemToUCP (node : LineItemNode) : UCPLineItem :=
  { product_id := jsOr ((node.variant.bind Variant.product).bind VariantProduct.id) ""
    variant_id := jsOr (node.variant.bind Variant.id) ""
    quantity := node.quantity
    title := node.name
    sku := node.sku
    image_url := (node.variant.bind Variant.product).bind VariantProduct.featuredImageUrl
    price := { amount := jsOr (node.originalUnitPriceSet.bind ShopMoney.amount) "0"
               currency_code := jsOr (node.originalUnitPriceSet.bind ShopMoney.currencyCode)
                 "USD" } }

/-- `transformShopifyAddressToUCP`: `undefined` stays `undefined`, otherwise the
fields are renamed to snake case. -/
def transformShopifyAddressToUCP (address : Option ShopifyAddress) : Option UCPAddress :=
  address.map fun a =>
    { address1 := a.address1
      address2 := a.address2
      city := a.city
      province := a.province
      province_code := a.provinceCode
      country := a.country
      country_code := a.countryCodeV2
      zip := a.zip
      phone := a.phone
      first_name := a.firstName
      last_name := a.lastName
      company := a.company }

/-- The amount string of a draft-order price set: `set?.shopMoney?.amount || "0"`. -/
def priceSetAmount (s : Option ShopMoney) : String :=
  jsOr (s.bind ShopMoney.amount) "0"

/-- The five checkout totals, in source order, each present even when zero. -/
def draftOrderCheckoutTotals (d : DraftOrder) (currency : String) : List UCPTotal :=
  [{ type := "subtotal", amount := ⟨priceSetAmount d.subtotalPriceSet, currency⟩ },
   { type := "tax", amount := ⟨priceSetAmount d.totalTaxSet, currency⟩ },
   { type := "shipping", amount := ⟨priceSetAmount d.totalShippingPriceSet, currency⟩ },
   { type := "discount", amount := ⟨priceSetAmount d.totalDiscountsSet, currency⟩ },
   { type := "total", amount := ⟨priceSetAmount d.totalPriceSet, currency⟩ }]

/-- The constant checkout `ucp` metadata. -/
def checkoutMetadata : UCPMetadata :=
  ⟨"2026-01-01", "dev.ucp.shopping.checkout", "https://ucp.dev/specification/checkout"⟩

/-- The 24-hour checkout TTL in milliseconds. -/
def CHECKOUT_TTL_MS : Int := 24 * 60 * 60 * 1000

/-- `transformShopifyDraftOrderToUCPCheckout`: the full draft-order to checkout
mapping of `checkoutService.ts`. -/
def transformShopifyDraftOrderToUCPCheckout (d : DraftOrder) : UCPCheckout :=
  let currency := jsOr (d.totalPriceSet.bind ShopMoney.currencyCode) "USD"
  let status := mapShopifyStatusToUCP d
  let messages := generateCheckoutMessages d status
  { ucp := checkoutMetadata
    id := d.id
    line_items := (d.lineItems.getD []).map transformShopifyLineItemToUCP
    status := status
    currency := currency
    totals := draftOrderCheckoutTotals d currency
    links := [⟨"self", "/checkout-sessions/" ++ d.id, none⟩] ++
      (if strTruthy d.invoiceUrl then
        [⟨"checkout", jsOr d.invoiceUrl "", some "Complete checkout"⟩] else [])
    messages := if messages.length > 0 then some messages else none
    expires_at :=
      if status ≠ .completed ∧ status ≠ .canceled then
        d.createdAt.map (· + CHECKOUT_TTL_MS)
      else none
    continue_url := if status = .requires_escalation then d.invoiceUrl else none
    buyer := d.customer.map fun cu =>
      { email := cu.email
        first_name := cu.firstName
        last_name := cu.lastName
        phone := cu.phone
        addresses := [transformShopifyAddressToUCP d.shippingAddress,
          transformShopifyAddressToUCP d.billingAddress].filterMap id }
    order := d.order.map fun o =>
      { id := o.id, number := o.name, permalink_url := o.statusPageUrl } }

/-! ## Checkout lifecycle operations

Each operation is one or more sequential backend round trips. The backend's
responses are explicit arguments: `fetchResp` is the `draftOrder` object (or
null) answering the read query, and the mutation / deletion responses carry the
optional `userErrors` array (`none` also covers a response missing the
enclosing `data` layers) and the returned object. Thrown `Error`s are the
`Except.error` case, carrying the message. -/

/-- A thrown `Error` (with its message) or a normal return. -/
inductive ServiceResult (α : Type)
  | thrown (message : String)
  | ok (value : α)
deriving DecidableEq

/-- A backend `userErrors` entry. -/
structure UserError where
  field : Option String := none
  message : String := ""
deriving DecidableEq

/-- `data.data?.X?.userErrors?.length > 0`. -/
def userErrorsNonempty (r : Option (List UserError)) : Bool :=
  match r with
  | some (_ :: _) => true
  | _ => false

/-- `userErrors[0].message` (used only under a non-emptiness guard). -/
def firstUserErrorMessage (r : Option (List UserError)) : String :=
  match r with
  | some (e :: _) => e.message
  | _ => ""

/-- The response of the `draftOrderComplete` mutation. -/
structure MutationResponse where
  userErrors : Option (List UserError) := none
  draftOrder : Option DraftOrder := none
deriving DecidableEq

/-- The response of the `draftOrderDelete` mutation. -/
structure DeleteResponse where
  deletedId : Option String := none
  userErrors : Option (List UserError) := none
deriving DecidableEq

/-- `getCheckout`: map the fetched draft order, or `null` when the backend has
no record for the id. -/
def getCheckout (fetchResp : Option DraftOrder) : Option UCPCheckout :=
  fetchResp.map transformShopifyDraftOrderToUCPCheckout

/-- Truthiness of `checkout.buyer?.email` on a mapped checkout. -/
def buyerEmailTruthy (c : UCPCheckout) : Bool :=
  strTruthy (c.buyer.bind UCPBuyer.email)

/-- `checkout.buyer?.addresses?.some(addr => addr.address1 && addr.city)`:
the completion validation's address check. -/
def buyerHasShipping (c : UCPCheckout) : Bool :=
  match c.buyer with
  | none => false
  | some b => b.addresses.any fun a => strTruthy a.address1 && strTruthy a.city

/-- The `PreconditionFailed` message of `completeCheckout`, listing the missing
fields joined by `" and "`. -/
def completeErrorMessage (missing : List String) : String :=
  "Cannot complete checkout: " ++ String.intercalate " and " missing ++
    " is missing. Please use update_checkout to provide these details first."

/-- The outcome of `completeCheckout`: whether the `draftOrderComplete`
mutation round trip was reached, and the thrown error or returned checkout. -/
structure CompleteOutcome where
  invokedMutation : Bool
  result : ServiceResult UCPCheckout
deriving DecidableEq

/-- `completeCheckout`: re-fetch, validate buyer email and shipping address on
the mapped checkout, then run the completion mutation. The model of the final
`transform(...)` on a response that carries no `draftOrder` object is the
`TypeError` the source would throw there. -/
def completeCheckout (checkoutId : String) (fetchResp : Option DraftOrder)
    (mutationResp : MutationResponse) : CompleteOutcome :=
  match getCheckout fetchResp with
  | none => ⟨false, .thrown ("Checkout " ++ checkoutId ++ " not found")⟩
  | some checkout =>
    let emailOk := buyerEmailTruthy checkout
    let shipOk := buyerHasShipping checkout
    if !emailOk || !shipOk then
      let missing := (if !emailOk then ["buyer email"] else []) ++
        (if !shipOk then ["shipping address"] else [])
      ⟨false, .thrown (completeErrorMessage missing)⟩
    else if userErrorsNonempty mutationResp.userErrors then
      ⟨true, .thrown (firstUserErrorMessage mutationResp.userErrors)⟩
    else
      match mutationResp.draftOrder with
      | some d => ⟨true, .ok (transformShopifyDraftOrderToUCPCheckout d)⟩
      | none => ⟨true, .thrown "TypeError: draftOrder is undefined"⟩

/-- The informational message a canceled checkout carries. -/
def cancelInfoMessage : UCPMessage :=
  { type := "info"
    code := some "checkout_canceled"
    content := "Checkout session has been canceled" }

/-- `cancelCheckout`: fetch the current state, run the deletion mutation, and
return the last-known checkout with status forced to `canceled`. -/
def cancelCheckout (checkoutId : String) (fetchResp : Option DraftOrder)
    (deleteResp : DeleteResponse) : ServiceResult UCPCheckout :=
  match getCheckout fetchResp with
  | none => .thrown ("Checkout " ++ checkoutId ++ " not found")
  | some checkout =>
    if userErrorsNonempty deleteResp.userErrors then
      .thrown (firstUserErrorMessage deleteResp.userErrors)
    else
      .ok { checkout with
        status := .canceled
        messages := some [cancelInfoMessage] }

/-! ## Cart mapper (`cartService.ts`) -/

/-- The `buyer` object a mapped cart carries (no addresses). -/
structure UCPCartBuyer where
  email : Option String := none
  first_name : Option String := none
  last_name : Option String := none
  phone : Option String := none
deriving DecidableEq

/-- A mapped UCP cart (`UCPCart`); carts have no status field. -/
structure UCPCart where
  ucp : UCPMetadata
  id : String
  line_items : List UCPLineItem
  currency : String
  totals : List UCPTotal
  continue_url : Option String := none
  buyer : Option UCPCartBuyer := none
deriving DecidableEq

/-- The constant cart `ucp` metadata. -/
def cartMetadata : UCPMetadata :=
  ⟨"2026-01-01", "dev.ucp.shopping.cart", "https://ucp.dev/specification/cart"⟩

/-- `transformShopifyDraftOrderToUCPCart`: the draft-order to cart mapping of
`cartService.ts`; its totals are subtotal, tax and total only. -/
def transformShopifyDraftOrderToUCPCart (d : DraftOrder) : UCPCart :=
  let currency := jsOr (d.totalPriceSet.bind ShopMoney.currencyCode) "USD"
  { ucp := cartMetadata
    id := d.id
    line_items := (d.lineItems.getD []).map transformShopifyLineItemToUCP
    currency := currency
    totals :=
      [{ type := "subtotal", amount := ⟨priceSetAmount d.subtotalPriceSet, currency⟩ },
       { type := "tax", amount := ⟨priceSetAmount d.totalTaxSet, currency⟩ },
       { type := "total", amount := ⟨priceSetAmount d.totalPriceSet, currency⟩ }]
    continue_url := d.invoiceUrl
    buyer := d.customer.map fun cu =>
      { email := cu.email
        first_name := cu.firstName
        last_name := cu.lastName
        phone := cu.phone } }

/-! ## Order mapper (`orderService.ts`) -/

/-- One `trackingInfo` entry of a fulfillment. -/
structure TrackingInfo where
  number : Option String := none
  url : Option String := none
  company : Option String := none
deriving DecidableEq

/-- A Shopify fulfillment record; `fulfillmentLineItems.edges[..].node.lineItem.id`
is collapsed to the list of line-item ids. -/
structure ShopifyFulfillment where
  id : Option String := none
  createdAt : Option Int := none
  status : Option String := none
  trackingInfo : Option (List TrackingInfo) := none
  fulfillmentLineItemIds : Option (List String) := none
deriving DecidableEq

/-- A Shopify refund record. -/
structure ShopifyRefund where
  id : Option String := none
  createdAt : Option Int := none
  note : Option String := none
  totalRefundedSet : Option ShopMoney := none
deriving DecidableEq

/-- A Shopify order record as selected by `ORDER_FIELDS`. -/
structure ShopifyOrder where
  id : String := ""
  name : Option String := none
  createdAt : Option Int := none
  updatedAt : Option Int := none
  statusPageUrl : Option String := none
  displayFinancialStatus : Option String := none
  displayFulfillmentStatus : Option String := none
  cancelledAt : Option Int := none
  totalPriceSet : Option ShopMoney := none
  subtotalPriceSet : Option ShopMoney := none
  totalTaxSet : Option ShopMoney := none
  totalShippingPriceSet : Option ShopMoney := none
  totalDiscountsSet : Option ShopMoney := none
  totalRefundedSet : Option ShopMoney := none
  lineItems : Option (List LineItemNode) := none
  customer : Option Customer := none
  shippingAddress : Option ShopifyAddress := none
  fulfillments : Option (List ShopifyFulfillment) := none
  refunds : Option (List ShopifyRefund) := none
deriving DecidableEq

/-- An order line item (`UCPOrderLineItem`). -/
structure UCPOrderLineItem where
  id : Option String := none
  product_id : String
  variant_id : String
  quantity : Int
  title : Option String := none
  sku : Option String := none
  image_url : Option String := none
  price : UCPMoney
  fulfillable_quantity : Option Int := none
deriving DecidableEq

/-- `transformShopifyLineItemToUCPOrder`: one order line-item edge. -/
def transformShopifyLineItemToUCPOrder (node : LineItemNode) : UCPOrderLineItem :=
  { id := node.id
    product_id := jsOr ((node.variant.bind Variant.product).bind VariantProduct.id) ""
    variant_id := jsOr (node.variant.bind Variant.id) ""
    quantity := node.quantity
    title := node.name
    sku := node.sku
    image_url := (node.variant.bind Variant.product).bind VariantProduct.featuredImageUrl
    price := { amount := jsOr (node.originalUnitPriceSet.bind ShopMoney.amount) "0"
               currency_code := jsOr (node.originalUnitPriceSet.bind ShopMoney.currencyCode)
                 "USD" }
    fulfillable_quantity := node.fulfillableQuantity }

/-- A fulfillment event status. -/
inductive UCPFulfillmentStatus
  | pending
  | in_transit
  | delivered
  | failed
deriving DecidableEq

/-- `mapFulfillmentStatus`: the fixed enum translation, defaulting to `pending`. -/
def mapFulfillmentStatus (status : Option String) : UCPFulfillmentStatus :=
  match status with
  | some "SUCCESS" => .delivered
  | some "IN_PROGRESS" => .in_transit
  | some "FAILURE" => .failed
  | some "CANCELLED" => .failed
  | _ => .pending

/-- A mapped fulfillment event. -/
structure UCPFulfillmentEvent where
  id : Option String := none
  line_item_ids : List String := []
  status : UCPFulfillmentStatus
  tracking_number : Option String := none
  tracking_url : Option String := none
  carrier : Option String := none
  created_at : Option Int := none
deriving DecidableEq

/-- `transformFulfillmentToEvents`. -/
def transformFulfillmentToEvents (fulfillments : Option (List ShopifyFulfillment)) :
    List UCPFulfillmentEvent :=
  (fulfillments.getD []).map fun f =>
    { id := f.id
      line_item_ids := f.fulfillmentLineItemIds.getD []
      status := mapFulfillmentStatus f.status
      tracking_number := (f.trackingInfo.bind List.head?).bind TrackingInfo.number
      tracking_url := (f.trackingInfo.bind List.head?).bind TrackingInfo.url
      carrier := (f.trackingInfo.bind List.head?).bind TrackingInfo.company
      created_at := f.createdAt }

/-- A mapped adjustment (`type` is always `"refund"` here). -/
structure UCPAdjustment where
  id : Option String := none
  type : String
  amount : UCPMoney
  reason : Option String := none
  created_at : Option Int := none
deriving DecidableEq

/-- `transformRefundsToAdjustments`. -/
def transformRefundsToAdjustments (refunds : Option (List ShopifyRefund))
    (currency : String) : List UCPAdjustment :=
  (refunds.getD []).map fun r =>
    { id := r.id
      type := "refund"
      amount := ⟨jsOr (r.totalRefundedSet.bind ShopMoney.amount) "0", currency⟩
      reason := r.note
      created_at := r.createdAt }

/-- A mapped fulfillment expectation. -/
structure UCPExpectation where
  id : String
  line_item_ids : List (Option String)
  method : String
  destination : Option UCPAddress
deriving DecidableEq

/-- The `fulfillment` object of a mapped order. -/
structure UCPOrderFulfillment where
  expectations : List UCPExpectation
  events : List UCPFulfillmentEvent
deriving DecidableEq

/-- A mapped UCP order (`UCPOrder`). -/
structure UCPOrder where
  ucp : UCPMetadata
  id : String
  checkout_id : String
  permalink_url : Option String := none
  line_items : List UCPOrderLineItem
  fulfillment : UCPOrderFulfillment
  adjustments : List UCPAdjustment
  totals : List UCPTotal
deriving DecidableEq

/-- The constant order `ucp` metadata. -/
def orderMetadata : UCPMetadata :=
  ⟨"2026-01-01", "dev.ucp.shopping.order", "https://ucp.dev/specification/order"⟩

/-- `transformShopifyOrderToUCP`: the order to UCP mapping of `orderService.ts`,
with its five totals in source order. -/
def transformShopifyOrderToUCP (o : ShopifyOrder) (checkoutId : Option String) :
    UCPOrder :=
  let currency := jsOr (o.totalPriceSet.bind ShopMoney.currencyCode) "USD"
  let lineItems := (o.lineItems.getD []).map transformShopifyLineItemToUCPOrder
  { ucp := orderMetadata
    id := o.id
    checkout_id := jsOr checkoutId o.id
    permalink_url := o.statusPageUrl
    line_items := lineItems
    fulfillment :=
      { expectations :=
          match o.shippingAddress with
          | some addr =>
            [{ id := "exp-" ++ o.id
               line_item_ids := lineItems.map UCPOrderLineItem.id
               method := "shipping"
               destination := transformShopifyAddressToUCP (some addr) }]
          | none => []
        events := transformFulfillmentToEvents o.fulfillments }
    adjustments := transformRefundsToAdjustments o.refunds currency
    totals :=
      [{ type := "subtotal", amount := ⟨priceSetAmount o.subtotalPriceSet, currency⟩ },
       { type := "tax", amount := ⟨priceSetAmount o.totalTaxSet, currency⟩ },
       { type := "shipping", amount := ⟨priceSetAmount o.totalShippingPriceSet, currency⟩ },
       { type := "discount", amount := ⟨priceSetAmount o.totalDiscountsSet, currency⟩ },
       { type := "total", amount := ⟨priceSetAmount o.totalPriceSet, currency⟩ }] }

/-! ## Line-item normalizer (`parseUCPLineItems` of `ucpTransformers.ts`)

The three incoming wire shapes are one record type with optional fields: shape
(a) carries a nested `item` object, shapes (b) and (c) are flat. A price inside
a nested item is either a number of minor units or an already-converted money
object, reflecting the `typeof item.price === "number"` test. -/

/-- The price field of a nested wire item. -/
inductive WirePrice
  | minor (n : Int)
  | money (m : UCPMoney)
deriving DecidableEq

/-- The nested `item` object of wire shape (a). -/
structure WireItem where
  id : Option String := none
  variant_id : Option String := none
  title : Option String := none
  sku : Option String := none
  image_url : Option String := none
  price : Option WirePrice := none
deriving DecidableEq

/-- One incoming request line item, covering all three wire shapes. -/
structure WireLineItem where
  item : Option WireItem := none
  id : Option String := none
  product_id : Option String := none
  variant_id : Option String := none
  quantity : Option Int := none
  title : Option String := none
  sku : Option String := none
  image_url : Option String := none
  price : Option WirePrice := none
  properties : Option (List (String × String)) := none
deriving DecidableEq

/-- A request body as seen by `parseUCPLineItems`: its `line_items` array (or
none when absent / not an array), its optional `currency`, and any other keys,
which the function spreads through untouched. -/
structure WireBody where
  line_items : Option (List WireLineItem) := none
  currency : Option String := none
deriving DecidableEq

/-- The per-item normalization step of `parseUCPLineItems`. -/
def normalizeWireLineItem (currency : String) (li : WireLineItem) : WireLineItem :=
  match li.item with
  | some it =>
    { item := none
      id := none
      product_id := some (jsOr it.id "")
      variant_id := some (jsOr it.variant_id (jsOr it.id ""))
      quantity := some (jsOrInt li.quantity 1)
      title := it.title
      sku := it.sku
      image_url := it.image_url
      price :=
        match it.price with
        | some (.minor n) => some (.money (transformMoneyFromUCP n currency))
        | p => p
      properties := none }
  | none =>
    if strTruthy li.product_id && !strTruthy li.variant_id &&
        containsSubstr (li.product_id.getD "") "ProductVariant" then
      { li with variant_id := li.product_id }
    else
      li

/-- `parseUCPLineItems`: normalize every line item of the body, defaulting the
conversion currency to `"USD"`; a body without a `line_items` array is returned
unchanged. -/
def parseUCPLineItems (body : WireBody) : WireBody :=
  match body.line_items with
  | none => body
  | some l =>
    { body with line_items := some (l.map (normalizeWireLineItem (jsOr body.currency "USD"))) }

/-- The Shopify-side line-item input `transformLineItemToShopify` builds for
`draftOrderCreate` / `draftOrderUpdate`; `customAttributes` is present exactly
when the incoming item carries `properties`. -/
structure ShopifyLineItemInput where
  variantId : Option String := none
  quantity : Option Int := none
  customAttributes : Option (List (String × String)) := none
deriving DecidableEq

/-- `transformLineItemToShopify` of `checkoutService.ts`, applied to a
normalized line item. -/
def transformLineItemToShopify (item : WireLineItem) : ShopifyLineItemInput :=
  { variantId := item.variant_id
    quantity := item.quantity
    customAttributes := item.properties }

/-! ## Helper facts about `jsOr` -/

theorem jsOr_falsy {o : Option String} (h : strTruthy o = false) (dflt : String) :
    jsOr o dflt = dflt := by
  cases o with
  | none => rfl
  | some s =>
    unfold strTruthy at h
    unfold jsOr
    simp at h
    simp [h]

theorem some_jsOr_truthy {o : Option String} (h : strTruthy o = true) (dflt : String) :
    some (jsOr o dflt) = o := by
  cases o with
  | none => simp [strTruthy] at h
  | some s =>
    unfold strTruthy at h
    simp at h
    simp [jsOr, h]

/-! ## Sample records for witnesses and counterexamples -/

/-- A draft order with no customer, no shipping address and no invoice URL. -/
def draftBare : DraftOrder :=
  { id := "gid://shopify/DraftOrder/1"
    status := some "OPEN"
    lineItems := some [{ quantity := 1 }] }

/-- A draft order whose re-fetched state has a buyer email and a billing address
with street and city, but no shipping address. -/
def draftBillingOnly : DraftOrder :=
  { id := "gid://shopify/DraftOrder/2"
    status := some "OPEN"
    invoiceUrl := some "https://shop.example/invoice/2"
    customer := some { email := some "buyer@example.com" }
    shippingAddress := none
    billingAddress := some { address1 := some "1 Main St", city := some "Springfield" }
    lineItems := some [{ quantity := 1 }] }

/-- A plain existing draft order used for cancellation scenarios. -/
def draftForCancel : DraftOrder :=
  { id := "gid://shopify/DraftOrder/3"
    status := some "OPEN"
    lineItems := some [{ quantity := 1 }] }

/-! ## The claims -/

/-- The status derivation rule as the specification states it: `completed` when
a linked finalized order exists or the draft status is the completed marker;
else `ready_for_complete` when the invoice URL, the customer email and a
shipping address are all present; else `incomplete`. -/
def specDerivedStatus (d : DraftOrder) : UCPCheckoutStatus :=
  if d.order.isSome ∨ d.status = some "COMPLETED" then .completed
  else if strTruthy d.invoiceUrl && customerEmailTruthy d && d.shippingAddress.isSome then
    .ready_for_complete
  else
    .incomplete

/-- Claim C1: for every backend draft-order record, the derived checkout status
(`mapShopifyStatusToUCP`) is `completed` when a linked finalized order exists or
the draft status equals the completed marker, else `ready_for_complete` when the
invoice URL, customer email and shipping address are all present, else
`incomplete`; and the mapped checkout returned by
getCheckout/createCheckout/updateCheckout/completeCheckout carries exactly this
derived status. -/
theorem claim1_status_derivation (d : DraftOrder) :
    mapShopifyStatusToUCP d = specDerivedStatus d ∧
    (transformShopifyDraftOrderToUCPCheckout d).status = mapShopifyStatusToUCP d := by
  constructor
  · unfold mapShopifyStatusToUCP specDerivedStatus
    by_cases h1 : d.order.isSome
    · simp [h1]
    · by_cases h2 : d.status = some "COMPLETED"
      · simp [h1, h2]
      · simp [h1, h2]
  · rfl

/-- Claim C4 counterexample: `"25.0"` has one fractional digit, at most the two
decimals of USD, yet the round trip reformats it to `"25.00"`, so the round-trip
equality of the claim fails on it. -/
theorem claim4_counterexample :
    toMinorUnits "25.0" "USD" = 2500 ∧
    fromMinorUnits (toMinorUnits "25.0" "USD") "USD" = "25.00" ∧
    ("25.00" : String) ≠ "25.0" := by
  refine ⟨by decide, by decide, by decide⟩

/-- Claim C4 (amended): for every currency `c` and every nonnegative canonical
decimal string — the digits of `a` without leading zeros followed, when
`decimals c > 0`, by a point and exactly `decimals c` digits spelling `v` — the
round trip `fromMinorUnits (toMinorUnits x c) c` returns `x` unchanged; and
`toMinorUnits "25.00" "USD" = 2500`, `fromMinorUnits 2500 "USD" = "25.00"`,
`toMinorUnits "25.00" "JPY" = 25`. -/
theorem claim4_roundtrip_canonical (c : String) (a v : Nat)
    (hv : v < 10 ^ getCurrencyDecimals c) :
    fromMinorUnits (toMinorUnits (decimalString c a v) c) c = decimalString c a v ∧
    toMinorUnits "25.00" "USD" = 2500 ∧
    fromMinorUnits 2500 "USD" = "25.00" ∧
    toMinorUnits "25.00" "JPY" = 25 :=
  ⟨roundtrip_decimalString c a v hv, by decide, by decide, by decide⟩

/-- Claim C4 witness: the amended round trip at `"25.00"` in USD. -/
theorem claim4_roundtrip_canonical_witness :
    fromMinorUnits (toMinorUnits (decimalString "USD" 25 0) "USD") "USD" =
      decimalString "USD" 25 0 ∧
    toMinorUnits "25.00" "USD" = 2500 ∧
    fromMinorUnits 2500 "USD" = "25.00" ∧
    toMinorUnits "25.00" "JPY" = 25 :=
  claim4_roundtrip_canonical "USD" 25 0 (by decide)

/-- Claim C7: every currency whose uppercased code is not in the override table
has 2 decimals; the overridden examples have their table values (JPY 0, BHD 3,
CLF 4); and for every entry of the override table and every integer `n`,
`toMinorUnits (fromMinorUnits n c) c = n`. -/
theorem claim7_decimals_roundtrip :
    (∀ c : String, CURRENCY_DECIMALS.lookup (jsToUpper c) = none →
      getCurrencyDecimals c = 2) ∧
    getCurrencyDecimals "JPY" = 0 ∧
    getCurrencyDecimals "BHD" = 3 ∧
    getCurrencyDecimals "CLF" = 4 ∧
    (∀ e ∈ CURRENCY_DECIMALS, ∀ n : Int, toMinorUnits (fromMinorUnits n e.1) e.1 = n) := by
  refine ⟨?_, by decide, by decide, by decide, ?_⟩
  · intro c h
    unfold getCurrencyDecimals
    rw [h]
    rfl
  · intro e _ n
    exact toMinorUnits_fromMinorUnits n e.1

/-- Claim C7 witness: `"USD"` is not overridden and gets 2 decimals; the JPY
entry of the table round-trips the negative amount `-37`. -/
theorem claim7_decimals_roundtrip_witness :
    getCurrencyDecimals "USD" = 2 ∧
    toMinorUnits (fromMinorUnits (-37) "JPY") "JPY" = -37 :=
  ⟨claim7_decimals_roundtrip.1 "USD" (by decide),
   claim7_decimals_roundtrip.2.2.2.2 ("JPY", 0) (by decide) (-37)⟩

/-- Claim C8: `toMinorUnits` is a total function (by construction in this
embedding, as in the source, which never throws on string input), and on any
string that does not parse as a number it returns 0. -/
theorem claim8_nonnumeric_zero (s : String) (c : String)
    (h : parseDecimal s = none) : toMinorUnits s c = 0 := by
  unfold toMinorUnits
  rw [h]

/-- Claim C8 witness: `"not-a-number"` does not parse and converts to 0. -/
theorem claim8_nonnumeric_zero_witness :
    parseDecimal "not-a-number" = none ∧ toMinorUnits "not-a-number" "USD" = 0 :=
  ⟨by decide, claim8_nonnumeric_zero "not-a-number" "USD" (by decide)⟩

/-- Claim C5: for any record whose derived status is `incomplete`, the generated
messages contain exactly one error message per missing precondition — code
`missing_buyer_email` (severity `requires_buyer_input`, field `buyer.email`)
when the customer email is absent, `missing_shipping_address` (severity
`requires_buyer_input`) when the shipping address is absent, `empty_cart`
(severity `recoverable`) when there are no line items — every generated message
has type `error`; and for a record whose derived status is
`ready_for_complete`, no messages are generated at all. -/
theorem claim5_incomplete_messages (d : DraftOrder) :
    (mapShopifyStatusToUCP d = .incomplete →
      ((generateCheckoutMessages d .incomplete).filter
          (fun m => m.code == some "missing_buyer_email") =
        if customerEmailTruthy d then [] else [missingEmailMessage]) ∧
      ((generateCheckoutMessages d .incomplete).filter
          (fun m => m.code == some "missing_shipping_address") =
        if d.shippingAddress.isSome then [] else [missingShippingMessage]) ∧
      ((generateCheckoutMessages d .incomplete).filter
          (fun m => m.code == some "empty_cart") =
        if lineItemsNonempty d then [] else [emptyCartMessage]) ∧
      (∀ m ∈ generateCheckoutMessages d .incomplete, m.type = "error")) ∧
    (mapShopifyStatusToUCP d = .ready_for_complete →
      generateCheckoutMessages d .ready_for_complete = []) := by
  constructor
  · intro _
    cases hE : customerEmailTruthy d <;> cases hS : d.shippingAddress <;>
      cases hL : lineItemsNonempty d <;>
        simp [generateCheckoutMessages, hE, hL, hS, missingEmailMessage,
          missingShippingMessage, emptyCartMessage, List.filter]
  · intro _
    rfl

/-- Claim C5 witness: a record with no buyer email, no shipping address and one
line item derives `incomplete` and generates exactly the email and shipping
error messages. -/
theorem claim5_incomplete_messages_witness :
    ((generateCheckoutMessages draftBare .incomplete).filter
        (fun m => m.code == some "missing_buyer_email") = [missingEmailMessage]) ∧
    ((generateCheckoutMessages draftBare .incomplete).filter
        (fun m => m.code == some "missing_shipping_address") = [missingShippingMessage]) ∧
    ((generateCheckoutMessages draftBare .incomplete).filter
        (fun m => m.code == some "empty_cart") = []) := by
  have h := (claim5_incomplete_messages draftBare).1 (by decide)
  exact ⟨h.1, h.2.1, h.2.2.1⟩

/-- A draft order with every draft total absent, used to evaluate the totals
lists of the three mappers concretely. -/
def draftZeroTotals : DraftOrder :=
  { id := "gid://shopify/DraftOrder/6" }

/-- Claim C6 counterexample: the cart mapper emits only subtotal, tax and total
— not the five types the claim asserts for carts. -/
theorem claim6_counterexample :
    ((transformShopifyDraftOrderToUCPCart draftZeroTotals).totals.map UCPTotal.type) =
      ["subtotal", "tax", "total"] ∧
    ((transformShopifyDraftOrderToUCPCart draftZeroTotals).totals.map UCPTotal.type) ≠
      ["subtotal", "tax", "shipping", "discount", "total"] := by
  refine ⟨rfl, by decide⟩

/-- Claim C6 (amended): every mapped checkout and every mapped order carries
the full ordered totals list subtotal, tax, shipping, discount, total — even
when the backend amounts are absent or zero — while every mapped cart carries
exactly subtotal, tax, total, in that order. -/
theorem claim6_totals_types (d : DraftOrder) (o : ShopifyOrder) (cid : Option String) :
    ((transformShopifyDraftOrderToUCPCheckout d).totals.map UCPTotal.type) =
      ["subtotal", "tax", "shipping", "discount", "total"] ∧
    ((transformShopifyOrderToUCP o cid).totals.map UCPTotal.type) =
      ["subtotal", "tax", "shipping", "discount", "total"] ∧
    ((transformShopifyDraftOrderToUCPCart d).totals.map UCPTotal.type) =
      ["subtotal", "tax", "total"] :=
  ⟨rfl, rfl, rfl⟩

/-- When the re-validation finds a missing field, `completeCheckout` stops
before the mutation round trip and throws the precondition message listing the
missing fields. -/
theorem completeCheckout_missing (id : String) (d : DraftOrder) (resp : MutationResponse)
    (h : (!buyerEmailTruthy (transformShopifyDraftOrderToUCPCheckout d) ||
          !buyerHasShipping (transformShopifyDraftOrderToUCPCheckout d)) = true) :
    completeCheckout id (some d) resp =
      ⟨false, .thrown (completeErrorMessage
        ((if !buyerEmailTruthy (transformShopifyDraftOrderToUCPCheckout d) then
            ["buyer email"] else []) ++
         (if !buyerHasShipping (transformShopifyDraftOrderToUCPCheckout d) then
            ["shipping address"] else [])))⟩ := by
  simp only [completeCheckout, getCheckout, Option.map_some', h, if_true]

/-- When both re-validation checks pass, `completeCheckout` reaches the
mutation round trip. -/
theorem completeCheckout_proceeds (id : String) (d : DraftOrder) (resp : MutationResponse)
    (hE : buyerEmailTruthy (transformShopifyDraftOrderToUCPCheckout d) = true)
    (hS : buyerHasShipping (transformShopifyDraftOrderToUCPCheckout d) = true) :
    (completeCheckout id (some d) resp).invokedMutation = true := by
  simp only [completeCheckout, getCheckout, Option.map_some', hE, hS]
  cases hU : userErrorsNonempty resp.userErrors
  · cases hD : resp.draftOrder <;> simp [hU, hD]
  · simp [hU]

/-- Claim C2 counterexample: a re-fetched state with buyer email, no shipping
address, but a billing address carrying street and city passes the validation,
so the backend completion mutation is invoked although the shipping address is
missing. -/
theorem claim2_counterexample :
    draftBillingOnly.shippingAddress = none ∧
    (completeCheckout "gid://shopify/DraftOrder/2" (some draftBillingOnly)
        { draftOrder := some draftBillingOnly }).invokedMutation = true := by
  refine ⟨rfl, by decide⟩

/-- Claim C2 (amended): `completeCheckout` validates, on the re-fetched mapped
checkout, buyer-email truthiness and the presence of some buyer address
(shipping or billing) with street and city. When either check fails it throws
without invoking the backend mutation, and the thrown message names "buyer
email" exactly when the email check failed and "shipping address" exactly when
the address check failed; when both pass, the mutation is invoked. (The check
is not shipping-address presence itself: a billing address with street and city
also satisfies it, and a shipping address lacking street or city does not.) -/
theorem claim2_complete_validation (id : String) (d : DraftOrder) (resp : MutationResponse) :
    (buyerEmailTruthy (transformShopifyDraftOrderToUCPCheckout d) = false ∨
        buyerHasShipping (transformShopifyDraftOrderToUCPCheckout d) = false →
      (completeCheckout id (some d) resp).invokedMutation = false ∧
      ∃ msg, (completeCheckout id (some d) resp).result = .thrown msg ∧
        containsSubstr msg "buyer email" =
          !buyerEmailTruthy (transformShopifyDraftOrderToUCPCheckout d) ∧
        containsSubstr msg "shipping address" =
          !buyerHasShipping (transformShopifyDraftOrderToUCPCheckout d)) ∧
    (buyerEmailTruthy (transformShopifyDraftOrderToUCPCheckout d) = true →
      buyerHasShipping (transformShopifyDraftOrderToUCPCheckout d) = true →
      (completeCheckout id (some d) resp).invokedMutation = true) := by
  constructor
  · intro hmiss
    cases hE : buyerEmailTruthy (transformShopifyDraftOrderToUCPCheckout d) <;>
      cases hS : buyerHasShipping (transformShopifyDraftOrderToUCPCheckout d)
    · rw [completeCheckout_missing id d resp (by rw [hE, hS]; rfl)]
      simp only [hE, hS]
      refine ⟨by simp, _, rfl, by decide, by decide⟩
    · rw [completeCheckout_missing id d resp (by rw [hE, hS]; rfl)]
      simp only [hE, hS]
      refine ⟨by simp, _, rfl, by decide, by decide⟩
    · rw [completeCheckout_missing id d resp (by rw [hE, hS]; rfl)]
      simp only [hE, hS]
      refine ⟨by simp, _, rfl, by decide, by decide⟩
    · exfalso
      rcases hmiss with h | h
      · rw [hE] at h
        exact absurd h (by simp)
      · rw [hS] at h
        exact absurd h (by simp)
  · intro h1 h2
    exact completeCheckout_proceeds id d resp h1 h2

/-- Claim C2 witness: a record with neither buyer email nor any usable address
is rejected before the mutation, and the message names both missing fields. -/
theorem claim2_complete_validation_witness :
    (completeCheckout "gid://shopify/DraftOrder/1" (some draftBare) {}).invokedMutation =
      false ∧
    ∃ msg, (completeCheckout "gid://shopify/DraftOrder/1" (some draftBare) {}).result =
        .thrown msg ∧
      containsSubstr msg "buyer email" =
        !buyerEmailTruthy (transformShopifyDraftOrderToUCPCheckout draftBare) ∧
      containsSubstr msg "shipping address" =
        !buyerHasShipping (transformShopifyDraftOrderToUCPCheckout draftBare) :=
  (claim2_complete_validation "gid://shopify/DraftOrder/1" draftBare {}).1
    (Or.inl (by decide))

/-- Claim C3 counterexample: a deletion response carrying a non-empty
`userErrors` array makes `cancelCheckout` throw instead of returning the
canceled checkout, although the checkout exists. -/
theorem claim3_counterexample :
    (getCheckout (some draftForCancel)).isSome = true ∧
    cancelCheckout "gid://shopify/DraftOrder/3" (some draftForCancel)
        { userErrors := some [{ message := "boom" }] } = .thrown "boom" := by
  refine ⟨rfl, by decide⟩

/-- Claim C3 (amended): `cancelCheckout` first fetches the checkout and throws
NotFound when it does not exist; when it exists and the deletion response
carries no non-empty `userErrors` array, it returns the last-known checkout
with status forced to `canceled` and the informational message, regardless of
the rest of the deletion response (in particular of `deletedId`); a response
with a non-empty `userErrors` array instead makes it throw the first error
message. -/
theorem claim3_cancel_behavior (id : String) (fetchResp : Option DraftOrder)
    (resp : DeleteResponse) :
    (fetchResp = none →
      cancelCheckout id fetchResp resp = .thrown ("Checkout " ++ id ++ " not found")) ∧
    (∀ d, fetchResp = some d → userErrorsNonempty resp.userErrors = false →
      cancelCheckout id fetchResp resp =
        .ok { transformShopifyDraftOrderToUCPCheckout d with
              status := .canceled
              messages := some [cancelInfoMessage] }) := by
  constructor
  · rintro rfl
    rfl
  · rintro d rfl hU
    simp only [cancelCheckout, getCheckout, Option.map_some', hU, Bool.false_eq_true,
      if_false]

/-- Claim C3 witness: canceling an existing checkout with a structurally empty
deletion response yields the canceled last-known checkout. -/
theorem claim3_cancel_behavior_witness :
    cancelCheckout "gid://shopify/DraftOrder/3" (some draftForCancel) {} =
      .ok { transformShopifyDraftOrderToUCPCheckout draftForCancel with
            status := .canceled
            messages := some [cancelInfoMessage] } :=
  (claim3_cancel_behavior "gid://shopify/DraftOrder/3" (some draftForCancel) {}).2
    draftForCancel rfl rfl

/-- A request body whose single flat line item references a variant through
`product_id` only. -/
def wireBodyVariantRef : WireBody :=
  { line_items := some
      [{ product_id := some "gid://shopify/ProductVariant/42", quantity := some 1 }] }

/-- A request body whose single line item is in the nested UCP wire shape with
a plain product id and no variant id. -/
def wireBodyNested : WireBody :=
  { line_items := some
      [{ item := some { id := some "gid://shopify/Product/7", title := some "Snowboard"
                        price := some (.minor 2500) }
         quantity := some 2 }]
    currency := some "USD" }

/-- Claim C9: a flat line item whose truthy `product_id` contains the
`ProductVariant` marker and whose `variant_id` is falsy is normalized by
`parseUCPLineItems` to the same record with `variant_id` back-filled from
`product_id`, every other field unchanged. -/
theorem claim9_variant_backfill (body : WireBody) (l : List WireLineItem) (i : Nat)
    (li : WireLineItem)
    (hb : body.line_items = some l) (hi : l[i]? = some li)
    (hitem : li.item = none)
    (hpid : strTruthy li.product_id = true)
    (hvid : strTruthy li.variant_id = false)
    (hmark : containsSubstr (li.product_id.getD "") "ProductVariant" = true) :
    ((parseUCPLineItems body).line_items.getD [])[i]? =
      some { li with variant_id := li.product_id } := by
  unfold parseUCPLineItems
  rw [hb]
  simp only [Option.getD_some, List.getElem?_map, hi, Option.map_some']
  unfold normalizeWireLineItem
  rw [hitem]
  simp [hpid, hvid, hmark]

/-- Claim C9 witness: the flat variant-reference body is normalized so that
`variant_id` equals `product_id`, with the other fields untouched. -/
theorem claim9_variant_backfill_witness :
    ((parseUCPLineItems wireBodyVariantRef).line_items.getD [])[0]? =
      some { product_id := some "gid://shopify/ProductVariant/42"
             variant_id := some "gid://shopify/ProductVariant/42"
             quantity := some 1 } :=
  claim9_variant_backfill wireBodyVariantRef _ 0 _ rfl rfl rfl (by decide) (by decide)
    (by decide)

/-- Claim C10 (implicit): a nested-shape line item (shape (a)) with no
`item.variant_id` gets `variant_id` back-filled from `item.id` unconditionally
— no variant-type marker is required — so the normalized record reaches the
mappers with `variant_id` present and equal to `product_id`, and
`transformLineItemToShopify` sends exactly that raw product id to the backend
as `variantId`. -/
theorem claim10_nested_variant_default (body : WireBody) (l : List WireLineItem) (i : Nat)
    (li : WireLineItem) (it : WireItem)
    (hb : body.line_items = some l) (hi : l[i]? = some li)
    (hitem : li.item = some it)
    (hvid : strTruthy it.variant_id = false)
    (hid : strTruthy it.id = true) :
    ∃ li', ((parseUCPLineItems body).line_items.getD [])[i]? = some li' ∧
      li'.variant_id = it.id ∧
      li'.variant_id = li'.product_id ∧
      li'.variant_id.isSome = true ∧
      (transformLineItemToShopify li').variantId = it.id := by
  unfold parseUCPLineItems
  rw [hb]
  simp only [Option.getD_some, List.getElem?_map, hi, Option.map_some']
  unfold normalizeWireLineItem
  rw [hitem]
  refine ⟨_, rfl, ?_, ?_, ?_, ?_⟩
  · show some (jsOr it.variant_id (jsOr it.id "")) = it.id
    rw [jsOr_falsy hvid, some_jsOr_truthy hid]
  · show some (jsOr it.variant_id (jsOr it.id "")) = some (jsOr it.id "")
    rw [jsOr_falsy hvid]
  · rfl
  · show some (jsOr it.variant_id (jsOr it.id "")) = it.id
    rw [jsOr_falsy hvid, some_jsOr_truthy hid]

/-- Claim C10 witness: the nested body is normalized so that `variant_id` and
`product_id` both carry the raw product id, which is what the Shopify line-item
input receives as `variantId`. -/
theorem claim10_nested_variant_default_witness :
    ∃ li', ((parseUCPLineItems wireBodyNested).line_items.getD [])[0]? = some li' ∧
      li'.variant_id = some "gid://shopify/Product/7" ∧
      li'.variant_id = li'.product_id ∧
      li'.variant_id.isSome = true ∧
      (transformLineItemToShopify li').variantId = some "gid://shopify/Product/7" :=
  claim10_nested_variant_default wireBodyNested _ 0 _
    { id := some "gid://shopify/Product/7", title := some "Snowboard"
      price := some (.minor 2500) }
    rfl rfl rfl (by decide) (by decide)

end UCPBridge
